import Mathlib

/-!
Verification of the Trivia cog of progphil-bot (`src/bot/cogs/trivia.py`):
the daily dispatch gate (`Trivia.trivia_loop`), the schedule normalizer
(`Trivia._get_schedule`), the time-string validator (`Trivia._check_time`)
and the configuration commands (`setup`, `schedule`, `channel`).

Modelling conventions:
  - strings are Lean `String`s; Python regex character classes are expressed
    on `Char.toNat` code points (`'0'` = 48, `':'` = 58, newline = 10);
  - wall-clock time is modelled at minute granularity: an instant is an
    absolute minute count `now`, the current date (`datetime.today().date()`)
    is `now / 1440` and the current UTC time-of-day
    (`datetime.utcnow().time()`) is `now % 1440`; the processing clock is
    taken to be UTC, matching the deployment the spec describes;
  - external collaborators (channel lookup, the HTTP fetch) are an explicit
    per-tick environment;
  - exceptions escaping the loop body are an explicit `error` field; the
    state mutations made before the exception are kept, as in Python.
-/

set_option linter.unusedVariables false
set_option maxRecDepth 100000

namespace ProgphilTrivia

/-- Matches the regex class `[0-9]` (code points 48–57). -/
def isDig (c : Char) : Bool := decide (48 ≤ c.toNat ∧ c.toNat ≤ 57)

/-- Value of a decimal digit character: `digitVal ofChar 7 = 7`. -/
def digitVal (c : Char) : Nat := c.toNat - 48

/-- Matches the two-digit hour alternatives `[01][0-9]` or `2[0-3]` of the
pattern in `Trivia._check_time`. -/
def hourTwoOk (h1 h2 : Char) : Bool :=
  decide (((h1.toNat = 48 ∨ h1.toNat = 49) ∧ (48 ≤ h2.toNat ∧ h2.toNat ≤ 57)) ∨
    (h1.toNat = 50 ∧ (48 ≤ h2.toNat ∧ h2.toNat ≤ 51)))

/-- Matches the minute part `[0-5][0-9]` of the pattern in
`Trivia._check_time`. -/
def minuteOk (m1 m2 : Char) : Bool :=
  decide ((48 ≤ m1.toNat ∧ m1.toNat ≤ 53) ∧ (48 ≤ m2.toNat ∧ m2.toNat ≤ 57))

/-- Matches a colon (code point 58). -/
def isColon (c : Char) : Bool := decide (c.toNat = 58)

/-- Core of the anchored pattern `([01]?[0-9]|2[0-3]):[0-5][0-9]` of
`Trivia._check_time`, required to consume the whole character list: either a
one-digit hour `[0-9]` (the optional `[01]?` absent) or a two-digit hour,
then `:`, then a two-digit minute `[0-5][0-9]`. -/
def hhmm_core : List Char → Bool
  | [h1, c, m1, m2] => isDig h1 && isColon c && minuteOk m1 m2
  | [h1, h2, c, m1, m2] => hourTwoOk h1 h2 && isColon c && minuteOk m1 m2
  | _ => false

/-- Model of `Trivia._check_time`:
`re.match(r'^([01]?[0-9]|2[0-3]):[0-5][0-9]$', s) is not None`.
Python's `$` matches at the end of the string or just before one trailing
newline, so a string ending in a single newline is accepted exactly when the
part before the newline matches the core pattern. -/
def check_time (s : String) : Bool :=
  match s.data.getLast? with
  | some c => if c.toNat = 10 then hhmm_core s.data.dropLast else hhmm_core s.data
  | none => hhmm_core s.data

/-- Model of CPython strptime's `%H` directive (regex `2[0-3]|[0-1]\d|\d`):
parses a one- or two-digit hour from the front of the list and returns it
with the remaining characters. -/
def parseH : List Char → Option (Nat × List Char)
  | c1 :: c2 :: rest =>
    if c1.toNat = 50 ∧ 48 ≤ c2.toNat ∧ c2.toNat ≤ 51 then
      some (20 + digitVal c2, rest)
    else if (c1.toNat = 48 ∨ c1.toNat = 49) ∧ isDig c2 = true then
      some (10 * digitVal c1 + digitVal c2, rest)
    else if isDig c1 then
      some (digitVal c1, c2 :: rest)
    else none
  | [c1] => if isDig c1 then some (digitVal c1, []) else none
  | [] => none

/-- Model of CPython strptime's `%M` directive (regex `[0-5]\d|\d`). -/
def parseM : List Char → Option (Nat × List Char)
  | c1 :: c2 :: rest =>
    if (48 ≤ c1.toNat ∧ c1.toNat ≤ 53) ∧ isDig c2 = true then
      some (10 * digitVal c1 + digitVal c2, rest)
    else if isDig c1 then
      some (digitVal c1, c2 :: rest)
    else none
  | [c1] => if isDig c1 then some (digitVal c1, []) else none
  | [] => none

/-- Model of `datetime.strptime(s, "%H:%M").time()`: an hour (`%H`), a
literal colon, a minute (`%M`), and the whole string must be consumed;
`none` models the ValueError raised otherwise. -/
def parseHM (s : String) : Option (Nat × Nat) :=
  match parseH s.data with
  | none => none
  | some (h, rest) =>
    match rest with
    | [] => none
    | c :: rest2 =>
      if c.toNat = 58 then
        match parseM rest2 with
        | none => none
        | some (m, []) => some (h, m)
        | some (_, _ :: _) => none
      else none

/-- Persisted configuration row of the trivia feature (TriviaDB): the
destination channel id and the schedule string. -/
structure Config where
  channel_id : Nat
  schedule : String
deriving DecidableEq

/-- Model of `Trivia._get_schedule`: when config is None return `time(0, 0)`;
otherwise parse the stored schedule with strptime `"%H:%M"` (ValueError
modelled as `none`), combine the resulting time with the current day
(`today`, a day ordinal), subtract `timedelta(hours=8)` and take the
time-of-day, returned as minutes after midnight. -/
def get_schedule (config : Option Config) (today : Nat) : Option Nat :=
  match config with
  | none => some 0
  | some c =>
    match parseHM c.schedule with
    | none => none
    | some (h, m) =>
      some ((((today : Int) * 1440 + h * 60 + m - 480) % 1440).toNat)

/-- Ephemeral replies sent through `interaction.response.send_message` by the
trivia commands. -/
inductive Reply where
  | notSetup
  | alreadySetup
  | badTime
  | scheduled (s : String)
  | channelSet
  | setupDone
deriving DecidableEq

/-- Python's `x is None` applied to the Bool returned by `_check_time`: a
bool object is never None, so the test is always false and the validation
branch guarded by it is unreachable. -/
def bool_is_none (b : Bool) : Bool := false

/-- Model of the `Trivia.schedule` command (update the schedule). The
persisted row is modelled by the returned config: `db.update` followed by
`db.get_config` round-trips the written values. -/
def schedule_command (config : Option Config) (sched : String) :
    Option Config × Reply :=
  match config with
  | none => (none, .notSetup)
  | some c =>
    if bool_is_none (check_time sched) then (some c, .badTime)
    else (some { channel_id := c.channel_id, schedule := sched }, .scheduled sched)

/-- Model of the `Trivia.channel` command (update the channel). -/
def channel_command (config : Option Config) (ch : Nat) :
    Option Config × Reply :=
  match config with
  | none => (none, .notSetup)
  | some c => (some { channel_id := ch, schedule := c.schedule }, .channelSet)

/-- Model of the `Trivia.setup` command (insert the initial config). -/
def setup_command (config : Option Config) (ch : Nat) (sched : String) :
    Option Config × Reply :=
  match config with
  | some c => (some c, .alreadySetup)
  | none =>
    if bool_is_none (check_time sched) then (none, .badTime)
    else (some { channel_id := ch, schedule := sched }, .setupDone)

/-- Process-local dispatch state of the Trivia cog: `sent_today` and
`sent_date` (a day ordinal, `none` at process start). -/
structure TriviaState where
  sent_today : Bool
  sent_date : Option Nat
deriving DecidableEq

/-- Outcome of the `requests.get` call on one tick: an HTTP response with a
status code and the list of `fact` field values of the decoded JSON array,
or a raised transport exception. A payload whose first element is missing
(empty array, IndexError) or lacks the `fact` key (KeyError) raises out of
the tick body either way and is modelled by an empty list. -/
inductive FetchResult where
  | response (status : Nat) (facts : List String)
  | raised
deriving DecidableEq

/-- Per-tick environment: the result of `bot.get_channel(config.channel_id)`
and the outcome of the HTTP fetch. -/
structure Env where
  channel : Option Nat
  fetch : FetchResult
deriving DecidableEq

/-- Message posted to the trivia channel during a tick: either the fetch
failure notice (carrying the HTTP status code) or the trivia embed whose
body is the fetched fact. -/
inductive Notif where
  | fetchFailure (status : Nat)
  | trivia (fact : String)
deriving DecidableEq

/-- Exception escaping the body of `trivia_loop`: ValueError from strptime
on an unparsable stored schedule, AttributeError from `.send` on a None
channel, a transport exception from `requests.get`, or IndexError/KeyError
when the payload carries no first fact (empty array or missing key). -/
inductive TickError where
  | scheduleUnparsable
  | nullChannel
  | fetchRaised
  | emptyPayload
deriving DecidableEq

/-- Whether an exception escaping the loop body ends the timer task.
`discord.ext.tasks` catches `Loop._valid_exception = (OSError,
discord.GatewayNotFound, discord.ConnectionClosed, aiohttp.ClientError,
asyncio.TimeoutError)` and, with the default `reconnect=True`, sleeps with
backoff and keeps running; `requests` transport exceptions subclass
OSError, so they are retried. ValueError, AttributeError and
IndexError/KeyError are outside the tuple, reach the outer handler and end
the task. -/
def TickError.stops_loop : TickError → Bool
  | .fetchRaised => false
  | _ => true

/-- Result of one tick: the dispatch state after the tick (including
mutations made before an exception), the messages delivered to the channel,
and the exception escaping the tick body, if any. -/
structure TickResult where
  state : TriviaState
  notifs : List Notif
  error : Option TickError
deriving DecidableEq

/-- Model of one tick of `Trivia.trivia_loop` at absolute minute `now`:
return if config is None; reset `sent_today` when the current date differs
from `sent_date`; return if the current time-of-day is below the normalized
schedule, or if already sent today; otherwise fetch, post the failure notice
and return on a non-200 status, or post the trivia embed and record
`sent_today = true`, `sent_date = today`. -/
def trivia_tick (config : Option Config) (env : Env) (now : Nat)
    (st : TriviaState) : TickResult :=
  match config with
  | none => ⟨st, [], none⟩
  | some c =>
    let today := now / 1440
    let st1 := if some today ≠ st.sent_date then { st with sent_today := false } else st
    match get_schedule (some c) today with
    | none => ⟨st1, [], some .scheduleUnparsable⟩
    | some fire =>
      if ¬ now % 1440 ≥ fire then ⟨st1, [], none⟩
      else if st1.sent_today then ⟨st1, [], none⟩
      else
        match env.fetch with
        | .raised => ⟨st1, [], some .fetchRaised⟩
        | .response status facts =>
          if status ≠ 200 then
            match env.channel with
            | none => ⟨st1, [], some .nullChannel⟩
            | some _ => ⟨st1, [.fetchFailure status], none⟩
          else
            match facts with
            | [] => ⟨st1, [], some .emptyPayload⟩
            | fact :: _ =>
              match env.channel with
              | none => ⟨st1, [], some .nullChannel⟩
              | some _ => ⟨⟨true, some today⟩, [.trivia fact], none⟩

/-- Aggregate result of a run of consecutive ticks: final dispatch state,
the trace of delivered messages tagged with the minute each was sent, and
the exception that ended the run, if any. -/
structure RunResult where
  state : TriviaState
  trace : List (Nat × Notif)
  error : Option TickError
deriving DecidableEq

/-- Run `count` consecutive minute ticks of `trivia_loop` starting at
absolute minute `start`; `envf n` is the environment observed by the tick at
minute `n`. An exception escaping a tick goes to `discord.ext.tasks`: a
transport exception from the fetch is in the OSError family the loop
catches and, with the default `reconnect=True`, retries after a backoff, so
the run continues with the next tick (the backoff delay is not modelled);
any other exception is unhandled, ends the timer task, and the remaining
ticks do not run. -/
def runTicks (config : Option Config) (envf : Nat → Env) :
    Nat → Nat → TriviaState → RunResult
  | _, 0, st => ⟨st, [], none⟩
  | start, k + 1, st =>
    let r := trivia_tick config (envf start) start st
    match r.error with
    | some e =>
      if e.stops_loop then ⟨r.state, r.notifs.map (fun n => (start, n)), some e⟩
      else
        let rest := runTicks config envf (start + 1) k r.state
        ⟨rest.state, r.notifs.map (fun n => (start, n)) ++ rest.trace, rest.error⟩
    | none =>
      let rest := runTicks config envf (start + 1) k r.state
      ⟨rest.state, r.notifs.map (fun n => (start, n)) ++ rest.trace, rest.error⟩

/-- Normalized fire time, in minutes after midnight, of a schedule parsed as
hour `h`, minute `m`: the 8-hour offset subtracted, wrapping past
midnight. -/
def fireMinutes (h m : Nat) : Nat := (h * 60 + m + 960) % 1440

/-- Predicate written from the words of the specification (§3): the string
matches `HH:MM` in 24-hour format with a two-digit hour 00–23 and a
two-digit minute 00–59, and nothing else. -/
def spec_strict_hhmm (s : String) : Bool :=
  match s.data with
  | [h1, h2, c, m1, m2] =>
    isColon c && isDig h1 && isDig h2 && isDig m1 && isDig m2 &&
      decide (10 * digitVal h1 + digitVal h2 ≤ 23 ∧
        10 * digitVal m1 + digitVal m2 ≤ 59)
  | _ => false

/-- Core of the amended validation property: `H:MM` with a one-digit hour
0–9, or `HH:MM` with a two-digit hour 00–23, the minute being two digits
00–59 in both forms. -/
def spec_amended_core : List Char → Bool
  | [h1, c, m1, m2] =>
    isColon c && isDig h1 && isDig m1 && isDig m2 &&
      decide (10 * digitVal m1 + digitVal m2 ≤ 59)
  | [h1, h2, c, m1, m2] =>
    isColon c && isDig h1 && isDig h2 && isDig m1 && isDig m2 &&
      decide (10 * digitVal h1 + digitVal h2 ≤ 23 ∧
        10 * digitVal m1 + digitVal m2 ≤ 59)
  | _ => false

/-- Predicate written from the amended claim for the validator: after
stripping one optional trailing newline (Python's `$`), the string must be
`H:MM` (one-digit hour 0–9) or `HH:MM` (two-digit hour 00–23), with a
two-digit minute 00–59. -/
def spec_time_amended (s : String) : Bool :=
  match s.data.getLast? with
  | some c =>
    if c.toNat = 10 then spec_amended_core s.data.dropLast
    else spec_amended_core s.data
  | none => spec_amended_core s.data

lemma get_schedule_some (c : Config) (day h m : Nat)
    (hp : parseHM c.schedule = some (h, m)) :
    get_schedule (some c) day = some (fireMinutes h m) := by
  simp only [get_schedule, hp, fireMinutes]
  congr 1
  omega

lemma hhmm_core_eq_amended (cs : List Char) : hhmm_core cs = spec_amended_core cs := by
  match cs with
  | [] | [_] | [_, _] | [_, _, _] => rfl
  | [h1, c, m1, m2] =>
    simp only [hhmm_core, spec_amended_core, isDig, isColon, minuteOk, digitVal]
    rw [Bool.eq_iff_iff]
    simp only [Bool.and_eq_true, decide_eq_true_eq]
    omega
  | [h1, h2, c, m1, m2] =>
    simp only [hhmm_core, spec_amended_core, isDig, isColon, minuteOk, hourTwoOk,
      digitVal]
    rw [Bool.eq_iff_iff]
    simp only [Bool.and_eq_true, decide_eq_true_eq]
    omega
  | _ :: _ :: _ :: _ :: _ :: _ :: _ => rfl

/-- C5: for every valid `HH:MM` schedule string parsing to hour `h` and
minute `m`, the schedule normalizer returns the time-of-day with hour
`(h - 8) mod 24` (written `(h + 24 - 8) % 24` over naturals) and minute `m`,
always a valid time-of-day with hour at most 23, on every date. -/
theorem normalizer_offset_correct (c : Config) (day h m : Nat)
    (hp : parseHM c.schedule = some (h, m)) (hh : h ≤ 23) (hm : m ≤ 59) :
    get_schedule (some c) day = some (((h + 24 - 8) % 24) * 60 + m) ∧
    ((h + 24 - 8) % 24) ≤ 23 ∧ ((h + 24 - 8) % 24) * 60 + m < 1440 := by
  refine ⟨?_, by omega, by omega⟩
  rw [get_schedule_some c day h m hp]
  congr 1
  simp only [fireMinutes]
  omega

/-- Witness for `normalizer_offset_correct` at schedule "09:00". -/
theorem normalizer_offset_correct_witness :
    get_schedule (some { channel_id := 1, schedule := "09:00" }) 20000 =
      some (((9 + 24 - 8) % 24) * 60 + 0) ∧
    ((9 + 24 - 8) % 24) ≤ 23 ∧ ((9 + 24 - 8) % 24) * 60 + 0 < 1440 :=
  normalizer_offset_correct { channel_id := 1, schedule := "09:00" } 20000 9 0
    (by decide) (by decide) (by decide)

/-- C10: the time-of-day returned by the schedule normalizer does not depend
on the current date it internally combines the parsed schedule with: any two
evaluation dates give the same result. -/
theorem normalizer_date_independent (c : Config) (d1 d2 : Nat) :
    get_schedule (some c) d1 = get_schedule (some c) d2 := by
  cases hp : parseHM c.schedule with
  | none => simp [get_schedule, hp]
  | some hm =>
    obtain ⟨h, m⟩ := hm
    rw [get_schedule_some c d1 h m hp, get_schedule_some c d2 h m hp]

/-- C7 counterexample: `_check_time` accepts "9:05" (a one-digit hour) and
"23:59" followed by a newline, neither of which matches the strict
two-digit `HH:MM` format the claim states. -/
theorem check_time_not_strict :
    check_time "9:05" = true ∧ spec_strict_hhmm "9:05" = false ∧
    check_time "23:59\n" = true ∧ spec_strict_hhmm "23:59\n" = false := by
  refine ⟨by decide, by decide, by decide, by decide⟩

/-- C7 amended: `_check_time` accepts a string exactly when, after stripping
one optional trailing newline, it is `H:MM` with a one-digit hour 0–9 or
`HH:MM` with a two-digit hour 00–23, the minute being two digits 00–59. -/
theorem check_time_amended (s : String) :
    check_time s = spec_time_amended s := by
  unfold check_time spec_time_amended
  cases h : s.data.getLast? with
  | none => exact hhmm_core_eq_amended s.data
  | some c =>
    by_cases hc : c.toNat = 10
    · simp only [hc, if_pos]
      exact hhmm_core_eq_amended s.data.dropLast
    · simp only [hc, if_neg, ite_false]
      exact hhmm_core_eq_amended s.data

/-- C2: the time-string validation in `setup` and `schedule` is dead code —
the commands test `_check_time(schedule) is None`, but `_check_time` returns
a bool, never None — so the malformed schedule "abc" is accepted and
persisted by both commands even though `_check_time "abc"` is false. -/
theorem validation_never_rejects :
    check_time "abc" = false ∧
    setup_command none 123 "abc" =
      (some { channel_id := 123, schedule := "abc" }, .setupDone) ∧
    schedule_command (some { channel_id := 123, schedule := "12:00" }) "abc" =
      (some { channel_id := 123, schedule := "abc" }, .scheduled "abc") := by
  refine ⟨by decide, ?_, ?_⟩ <;> rfl

/-- C9: with Config set, the schedule command rewrites only the schedule
field, preserving the channel id, and the channel command rewrites only the
channel id, preserving the schedule. -/
theorem commands_frame (c : Config) (s : String) (ch : Nat) :
    schedule_command (some c) s =
      (some { channel_id := c.channel_id, schedule := s }, .scheduled s) ∧
    channel_command (some c) ch =
      (some { channel_id := ch, schedule := c.schedule }, .channelSet) := by
  exact ⟨rfl, rfl⟩

lemma tick_quiet_prefire (c : Config) (h m : Nat)
    (hp : parseHM c.schedule = some (h, m)) (env : Env) (now : Nat)
    (sd : Option Nat) (hlt : now % 1440 < fireMinutes h m) :
    trivia_tick (some c) env now ⟨false, sd⟩ = ⟨⟨false, sd⟩, [], none⟩ := by
  have hgs := get_schedule_some c (now / 1440) h m hp
  have h1 : ¬ now % 1440 ≥ fireMinutes h m := by omega
  simp [trivia_tick, hgs, h1]

lemma tick_fire_success (c : Config) (h m : Nat)
    (hp : parseHM c.schedule = some (h, m)) (chn : Nat) (fact : String)
    (facts : List String) (now : Nat) (sd : Option Nat)
    (hge : fireMinutes h m ≤ now % 1440) :
    trivia_tick (some c) ⟨some chn, .response 200 (fact :: facts)⟩ now ⟨false, sd⟩ =
      ⟨⟨true, some (now / 1440)⟩, [.trivia fact], none⟩ := by
  have hgs := get_schedule_some c (now / 1440) h m hp
  have h1 : now % 1440 ≥ fireMinutes h m := hge
  simp [trivia_tick, hgs, h1]

lemma tick_fire_failstatus (c : Config) (h m : Nat)
    (hp : parseHM c.schedule = some (h, m)) (chn status : Nat)
    (facts : List String) (now : Nat) (sd : Option Nat)
    (hge : fireMinutes h m ≤ now % 1440) (hstatus : status ≠ 200) :
    trivia_tick (some c) ⟨some chn, .response status facts⟩ now ⟨false, sd⟩ =
      ⟨⟨false, sd⟩, [.fetchFailure status], none⟩ := by
  have hgs := get_schedule_some c (now / 1440) h m hp
  have h1 : now % 1440 ≥ fireMinutes h m := hge
  simp [trivia_tick, hgs, h1, hstatus]

lemma tick_quiet_sent (c : Config) (h m : Nat)
    (hp : parseHM c.schedule = some (h, m)) (env : Env) (now dd : Nat)
    (hday : now / 1440 = dd) :
    trivia_tick (some c) env now ⟨true, some dd⟩ = ⟨⟨true, some dd⟩, [], none⟩ := by
  subst hday
  have hgs := get_schedule_some c (now / 1440) h m hp
  by_cases h1 : now % 1440 ≥ fireMinutes h m <;> simp [trivia_tick, hgs, h1]

lemma tick_newday_quiet (c : Config) (h m : Nat)
    (hp : parseHM c.schedule = some (h, m)) (env : Env) (now dd : Nat)
    (b : Bool) (hday : now / 1440 ≠ dd) (hlt : now % 1440 < fireMinutes h m) :
    trivia_tick (some c) env now ⟨b, some dd⟩ = ⟨⟨false, some dd⟩, [], none⟩ := by
  have hgs := get_schedule_some c (now / 1440) h m hp
  have h1 : ¬ now % 1440 ≥ fireMinutes h m := by omega
  have h2 : some (now / 1440) ≠ some dd := by simpa using hday
  simp [trivia_tick, hgs, h1, h2]

lemma trivia_tick_cases (c : Config) (env : Env) (now : Nat) (st : TriviaState) :
    (trivia_tick (some c) env now st).state =
        (if some (now / 1440) ≠ st.sent_date then { st with sent_today := false }
          else st) ∨
    ((trivia_tick (some c) env now st).state = ⟨true, some (now / 1440)⟩ ∧
      ∃ f, (trivia_tick (some c) env now st).notifs = [.trivia f]) := by
  simp only [trivia_tick]
  repeat' split
  all_goals first
    | (left; rfl)
    | (right; exact ⟨rfl, _, rfl⟩)

/-- C3: on a tick whose observed date differs from the recorded sent date,
`sent_today` is reset before any fire decision — the tick behaves exactly as
if `sent_today` had been false; after any tick, `sent_today = true` implies
the recorded `sent_date` is the tick's date; and `sent_date` changes only
when a trivia message was actually delivered on that tick. -/
theorem rollover_reset_and_sent_invariant
    (c : Config) (env : Env) (now : Nat) (st : TriviaState) (D : Nat)
    (hD : st.sent_date = some D) :
    (st.sent_today = true → now / 1440 ≠ D →
      trivia_tick (some c) env now st =
        trivia_tick (some c) env now ⟨false, some D⟩) ∧
    ((trivia_tick (some c) env now st).state.sent_today = true →
      (trivia_tick (some c) env now st).state.sent_date = some (now / 1440)) ∧
    ((trivia_tick (some c) env now st).state.sent_date ≠ st.sent_date →
      ∃ f, (trivia_tick (some c) env now st).notifs = [.trivia f]) := by
  refine ⟨?_, ?_, ?_⟩
  · intro hb hne
    obtain ⟨b, sd⟩ := st
    simp only at hb hD
    subst hb
    subst hD
    have h2 : some (now / 1440) ≠ some D := by simpa using hne
    simp only [trivia_tick, if_pos h2]
  · rcases trivia_tick_cases c env now st with hA | ⟨hB, _⟩
    · intro ht
      rw [hA] at ht ⊢
      by_cases hcond : some (now / 1440) ≠ st.sent_date
      · rw [if_pos hcond] at ht
        simp at ht
      · rw [if_neg hcond]
        push_neg at hcond
        exact hcond.symm
    · intro _
      rw [hB]
  · rcases trivia_tick_cases c env now st with hA | ⟨hB, f, hf⟩
    · intro hne
      exfalso
      apply hne
      rw [hA]
      split_ifs <;> rfl
    · intro _
      exact ⟨f, hf⟩

/-- Witness for `rollover_reset_and_sent_invariant`: a tick on day 1 with
state carried over from day 0 behaves as if the sent flag were clear. -/
theorem rollover_reset_and_sent_invariant_witness :
    trivia_tick (some { channel_id := 1, schedule := "09:00" })
        ⟨some 5, .response 200 ["f"]⟩ (1 * 1440 + 60) ⟨true, some 0⟩ =
      trivia_tick (some { channel_id := 1, schedule := "09:00" })
        ⟨some 5, .response 200 ["f"]⟩ (1 * 1440 + 60) ⟨false, some 0⟩ :=
  (rollover_reset_and_sent_invariant { channel_id := 1, schedule := "09:00" }
    ⟨some 5, .response 200 ["f"]⟩ (1 * 1440 + 60) ⟨true, some 0⟩ 0 rfl).1 rfl
    (by omega)

/-- C6: the gate never fires on a tick whose time-of-day is strictly below
the normalized fire time and does fire at or after it; concretely, with
schedule "09:00" the normalized fire time is 01:00 UTC (minute 60), a tick
at 00:59 UTC posts nothing, and a tick at 01:00 UTC with payload
`[{"fact": "Bees can fly."}]` posts the notification body "Bees can fly.". -/
theorem fire_tiebreak_and_scenario
    (c : Config) (h m : Nat) (hp : parseHM c.schedule = some (h, m))
    (day : Nat) :
    (∀ env now st, now % 1440 < fireMinutes h m →
      (trivia_tick (some c) env now st).notifs = []) ∧
    (∀ chn fact now st, st.sent_today = false → fireMinutes h m ≤ now % 1440 →
      (trivia_tick (some c) ⟨some chn, .response 200 [fact]⟩ now st).notifs =
        [.trivia fact]) ∧
    get_schedule (some { channel_id := 1, schedule := "09:00" }) day = some 60 ∧
    (trivia_tick (some { channel_id := 1, schedule := "09:00" })
        ⟨some 5, .response 200 ["Bees can fly."]⟩ (day * 1440 + 59)
        ⟨false, none⟩).notifs = [] ∧
    (trivia_tick (some { channel_id := 1, schedule := "09:00" })
        ⟨some 5, .response 200 ["Bees can fly."]⟩ (day * 1440 + 60)
        ⟨false, none⟩).notifs = [.trivia "Bees can fly."] := by
  have hp0 : parseHM "09:00" = some (9, 0) := by decide
  have hf0 : fireMinutes 9 0 = 60 := by decide
  refine ⟨?_, ?_, ?_, ?_, ?_⟩
  · intro env now st hlt
    have hgs := get_schedule_some c (now / 1440) h m hp
    have h1 : ¬ now % 1440 ≥ fireMinutes h m := by omega
    simp [trivia_tick, hgs, h1]
  · intro chn fact now st hst hge
    obtain ⟨b, sd⟩ := st
    simp only at hst
    subst hst
    rw [tick_fire_success c h m hp chn fact [] now sd hge]
  · rw [get_schedule_some _ day 9 0 hp0, hf0]
  · rw [tick_quiet_prefire { channel_id := 1, schedule := "09:00" } 9 0 hp0 _
      (day * 1440 + 59) none (by rw [hf0]; omega)]
  · rw [tick_fire_success { channel_id := 1, schedule := "09:00" } 9 0 hp0 5
      "Bees can fly." [] (day * 1440 + 60) none (by rw [hf0]; omega)]

/-- Witness for `fire_tiebreak_and_scenario`: the 01:00 UTC tick on day 3
posts the fetched fact as the notification body. -/
theorem fire_tiebreak_and_scenario_witness :
    (trivia_tick (some { channel_id := 1, schedule := "09:00" })
        ⟨some 5, .response 200 ["Bees can fly."]⟩ (3 * 1440 + 60)
        ⟨false, none⟩).notifs = [.trivia "Bees can fly."] :=
  (fire_tiebreak_and_scenario { channel_id := 1, schedule := "09:00" } 9 0
    (by decide) 3).2.2.2.2

/-- C8 counterexample: a tick in which the configured channel does not
resolve (`bot.get_channel` returns None) raises an AttributeError out of the
loop body — the failure is not contained within the tick. -/
theorem tick_exception_escapes :
    (trivia_tick (some { channel_id := 1, schedule := "09:00" })
        ⟨none, .response 200 ["Bees can fly."]⟩ 60 ⟨false, none⟩).error =
      some .nullChannel := by
  decide

lemma runTicks_succ_ok (cfg : Option Config) (envf : Nat → Env) (s k : Nat)
    (st st' : TriviaState) (ns : List Notif)
    (h : trivia_tick cfg (envf s) s st = ⟨st', ns, none⟩) :
    runTicks cfg envf s (k + 1) st =
      ⟨(runTicks cfg envf (s + 1) k st').state,
        ns.map (fun n => (s, n)) ++ (runTicks cfg envf (s + 1) k st').trace,
        (runTicks cfg envf (s + 1) k st').error⟩ := by
  simp only [runTicks, h]

lemma runTicks_succ_cont (cfg : Option Config) (envf : Nat → Env) (s k : Nat)
    (st st' : TriviaState) (ns : List Notif) (err : Option TickError)
    (h : trivia_tick cfg (envf s) s st = ⟨st', ns, err⟩)
    (hc : ∀ e, err = some e → e.stops_loop = false) :
    runTicks cfg envf s (k + 1) st =
      ⟨(runTicks cfg envf (s + 1) k st').state,
        ns.map (fun n => (s, n)) ++ (runTicks cfg envf (s + 1) k st').trace,
        (runTicks cfg envf (s + 1) k st').error⟩ := by
  cases err with
  | none => simp only [runTicks, h]
  | some e => simp [runTicks, h, hc e rfl]

lemma runTicks_append (cfg : Option Config) (envf : Nat → Env) (a b s : Nat)
    (st st' : TriviaState) (tr : List (Nat × Notif))
    (h : runTicks cfg envf s a st = ⟨st', tr, none⟩) :
    runTicks cfg envf s (a + b) st =
      ⟨(runTicks cfg envf (s + a) b st').state,
        tr ++ (runTicks cfg envf (s + a) b st').trace,
        (runTicks cfg envf (s + a) b st').error⟩ := by
  induction a generalizing s st tr with
  | zero =>
    have h0 : runTicks cfg envf s 0 st = ⟨st, [], none⟩ := rfl
    rw [h0] at h
    simp only [RunResult.mk.injEq] at h
    obtain ⟨h1, h2, -⟩ := h
    subst h1
    subst h2
    simp
  | succ n ih =>
    rcases hr : trivia_tick cfg (envf s) s st with ⟨rst, rns, rerr⟩
    by_cases hstop : ∃ e, rerr = some e ∧ e.stops_loop = true
    · obtain ⟨e, he, hsl⟩ := hstop
      subst he
      have hbad : runTicks cfg envf s (n + 1) st =
          ⟨rst, rns.map (fun x => (s, x)), some e⟩ := by
        simp [runTicks, hr, hsl]
      rw [hbad] at h
      simp only [RunResult.mk.injEq] at h
      exact absurd h.2.2 (by simp)
    · push_neg at hstop
      have hc : ∀ e, rerr = some e → e.stops_loop = false := by
        intro e he
        simpa using hstop e he
      have hstep := runTicks_succ_cont cfg envf s n st rst rns rerr hr hc
      rw [hstep] at h
      rcases hrest : runTicks cfg envf (s + 1) n rst with ⟨qst, qtr, qerr⟩
      rw [hrest] at h
      simp only [RunResult.mk.injEq] at h
      obtain ⟨h1, h2, h3⟩ := h
      subst h1
      subst h3
      have harith : (n + 1) + b = (n + b) + 1 := by omega
      rw [harith]
      rw [runTicks_succ_cont cfg envf s (n + b) st rst rns rerr hr hc]
      rw [ih (s + 1) rst qtr hrest]
      have hsa : s + 1 + n = s + (n + 1) := by omega
      rw [hsa]
      simp [← h2, List.append_assoc]

lemma tick_raised_shape (c : Config) (h m : Nat)
    (hp : parseHM c.schedule = some (h, m)) (env : Env) (now : Nat)
    (st : TriviaState) (hraise : env.fetch = .raised) :
    (trivia_tick (some c) env now st).notifs = [] ∧
    ((trivia_tick (some c) env now st).error = none ∨
      (trivia_tick (some c) env now st).error = some .fetchRaised) := by
  have hgs := get_schedule_some c (now / 1440) h m hp
  simp only [trivia_tick, hgs, hraise]
  split_ifs <;> simp

/-- C8 amended: only a non-success fetch response is handled inside the tick
body — with the stored schedule parsing, the channel resolving, and the
fetch returning a response carrying at least one fact, the tick terminates
without propagating any exception, whatever the status code; and a tick
whose fetch raises a transport exception does let the exception escape the
tick body, but it is in the OSError family the task loop retries, so the
run simply continues with the remaining ticks from the post-tick state —
the timer task survives. The loop-ending escapes are the null channel, the
unparsable stored schedule, and the missing first fact. -/
theorem tick_error_free_when_collaborators_ok
    (c : Config) (h m : Nat) (hp : parseHM c.schedule = some (h, m))
    (chn status : Nat) (fact : String) (facts : List String)
    (now : Nat) (st : TriviaState)
    (envf : Nat → Env) (s k : Nat) (st0 : TriviaState)
    (hraise : (envf s).fetch = .raised) :
    (trivia_tick (some c) ⟨some chn, .response status (fact :: facts)⟩ now
        st).error = none ∧
    runTicks (some c) envf s (k + 1) st0 =
      runTicks (some c) envf (s + 1) k
        (trivia_tick (some c) (envf s) s st0).state := by
  constructor
  · have hgs := get_schedule_some c (now / 1440) h m hp
    simp only [trivia_tick, hgs]
    split_ifs <;> simp
  · have hshape := tick_raised_shape c h m hp (envf s) s st0 hraise
    have hstep := runTicks_succ_cont (some c) envf s k st0
      (trivia_tick (some c) (envf s) s st0).state
      (trivia_tick (some c) (envf s) s st0).notifs
      (trivia_tick (some c) (envf s) s st0).error rfl
      (fun e he => by
        rcases hshape.2 with h0 | h0
        · rw [h0] at he
          simp at he
        · rw [h0] at he
          injection he with he2
          subst he2
          rfl)
    rw [hstep, hshape.1]
    simp

/-- Witness for `tick_error_free_when_collaborators_ok`: a 500 status on a
firing tick is contained, and a run whose minute-60 tick raises a transport
exception continues with the remaining ticks. -/
theorem tick_error_free_when_collaborators_ok_witness :
    (trivia_tick (some { channel_id := 1, schedule := "09:00" })
        ⟨some 5, .response 500 ["f"]⟩ 60 ⟨false, none⟩).error = none ∧
    runTicks (some { channel_id := 1, schedule := "09:00" })
        (fun n => if n = 60 then ⟨some 5, .raised⟩
          else ⟨some 5, .response 200 ["f"]⟩) 60 2 ⟨false, none⟩ =
      runTicks (some { channel_id := 1, schedule := "09:00" })
        (fun n => if n = 60 then ⟨some 5, .raised⟩
          else ⟨some 5, .response 200 ["f"]⟩) 61 1
        (trivia_tick (some { channel_id := 1, schedule := "09:00" })
          ((fun n => if n = 60 then ⟨some 5, .raised⟩
            else ⟨some 5, .response 200 ["f"]⟩) 60) 60 ⟨false, none⟩).state :=
  tick_error_free_when_collaborators_ok { channel_id := 1, schedule := "09:00" }
    9 0 (by decide) 5 500 "f" [] 60 ⟨false, none⟩
    (fun n => if n = 60 then ⟨some 5, .raised⟩
      else ⟨some 5, .response 200 ["f"]⟩) 60 1 ⟨false, none⟩ rfl

lemma runTicks_quiet_prefire (c : Config) (h m : Nat)
    (hp : parseHM c.schedule = some (h, m)) (envf : Nat → Env) (s k : Nat)
    (sd : Option Nat)
    (hk : ∀ i, i < k → (s + i) % 1440 < fireMinutes h m) :
    runTicks (some c) envf s k ⟨false, sd⟩ = ⟨⟨false, sd⟩, [], none⟩ := by
  induction k generalizing s with
  | zero => rfl
  | succ n ih =>
    have htick := tick_quiet_prefire c h m hp (envf s) s sd
      (by simpa using hk 0 (by omega))
    rw [runTicks_succ_ok (some c) envf s n ⟨false, sd⟩ ⟨false, sd⟩ [] htick]
    rw [ih (s + 1) (fun i hi => by
      have := hk (i + 1) (by omega)
      rw [show s + 1 + i = s + (i + 1) by omega]
      exact this)]
    simp

lemma runTicks_quiet_sent (c : Config) (h m : Nat)
    (hp : parseHM c.schedule = some (h, m)) (envf : Nat → Env) (s k dd : Nat)
    (hk : ∀ i, i < k → (s + i) / 1440 = dd) :
    runTicks (some c) envf s k ⟨true, some dd⟩ = ⟨⟨true, some dd⟩, [], none⟩ := by
  induction k generalizing s with
  | zero => rfl
  | succ n ih =>
    have htick := tick_quiet_sent c h m hp (envf s) s dd
      (by simpa using hk 0 (by omega))
    rw [runTicks_succ_ok (some c) envf s n ⟨true, some dd⟩ ⟨true, some dd⟩ [] htick]
    rw [ih (s + 1) (fun i hi => by
      have := hk (i + 1) (by omega)
      rw [show s + 1 + i = s + (i + 1) by omega]
      exact this)]
    simp

lemma runTicks_failures (c : Config) (h m : Nat)
    (hp : parseHM c.schedule = some (h, m)) (envf : Nat → Env)
    (chn : Nat) (status : Nat → Nat) (factsF : Nat → List String)
    (s k : Nat) (sd : Option Nat)
    (hfire : ∀ i, i < k → fireMinutes h m ≤ (s + i) % 1440)
    (henv : ∀ i, i < k → envf (s + i) =
      ⟨some chn, .response (status (s + i)) (factsF (s + i))⟩)
    (hbad : ∀ i, i < k → status (s + i) ≠ 200) :
    runTicks (some c) envf s k ⟨false, sd⟩ =
      ⟨⟨false, sd⟩,
        (List.range k).map (fun i => (s + i, .fetchFailure (status (s + i)))),
        none⟩ := by
  induction k with
  | zero => rfl
  | succ n ih =>
    have hfront := ih (fun i hi => hfire i (by omega))
      (fun i hi => henv i (by omega)) (fun i hi => hbad i (by omega))
    rw [runTicks_append (some c) envf n 1 s ⟨false, sd⟩ ⟨false, sd⟩ _ hfront]
    have htick : trivia_tick (some c) (envf (s + n)) (s + n) ⟨false, sd⟩ =
        ⟨⟨false, sd⟩, [.fetchFailure (status (s + n))], none⟩ := by
      rw [henv n (by omega)]
      exact tick_fire_failstatus c h m hp chn (status (s + n)) (factsF (s + n))
        (s + n) sd (hfire n (by omega)) (hbad n (by omega))
    rw [runTicks_succ_ok (some c) envf (s + n) 0 ⟨false, sd⟩ ⟨false, sd⟩
      [.fetchFailure (status (s + n))] htick]
    simp [List.range_succ, runTicks]

/-- C4: on a firing tick where the fetch returns a non-200 status, the
failure notice (carrying the status code) is posted and the state is left
unchanged; and over a same-day window in which the fetcher fails on `N`
consecutive ticks after fire time and succeeds on tick `N + 1`, the run
produces exactly the `N` failure notices followed by exactly one trivia
message, with `sent_today` remaining false through every failing prefix and
becoming true (with `sent_date` set to the day) only after the success
tick. -/
theorem fetch_failure_retry
    (c : Config) (h m : Nat) (hp : parseHM c.schedule = some (h, m))
    (chn : Nat) (fact : String) (status : Nat → Nat)
    (factsF : Nat → List String) (envf : Nat → Env) (s N : Nat)
    (sd : Option Nat)
    (hsame : s / 1440 = (s + N) / 1440)
    (hfire : fireMinutes h m ≤ s % 1440)
    (henvFail : ∀ i, i < N → envf (s + i) =
      ⟨some chn, .response (status (s + i)) (factsF (s + i))⟩)
    (hbad : ∀ i, i < N → status (s + i) ≠ 200)
    (henvSucc : envf (s + N) = ⟨some chn, .response 200 [fact]⟩) :
    (0 < N → trivia_tick (some c) (envf s) s ⟨false, sd⟩ =
      ⟨⟨false, sd⟩, [.fetchFailure (status s)], none⟩) ∧
    runTicks (some c) envf s (N + 1) ⟨false, sd⟩ =
      ⟨⟨true, some ((s + N) / 1440)⟩,
        (List.range N).map (fun i => (s + i, .fetchFailure (status (s + i)))) ++
          [(s + N, .trivia fact)], none⟩ ∧
    (∀ k, k ≤ N →
      (runTicks (some c) envf s k ⟨false, sd⟩).state.sent_today = false) := by
  have hfire' : ∀ i, i ≤ N → fireMinutes h m ≤ (s + i) % 1440 := by
    intro i hi
    omega
  refine ⟨?_, ?_, ?_⟩
  · intro hN
    have he := henvFail 0 hN
    have hb := hbad 0 hN
    simp only [Nat.add_zero] at he hb
    rw [he]
    exact tick_fire_failstatus c h m hp chn (status s) (factsF s) s sd hfire hb
  · have hfail := runTicks_failures c h m hp envf chn status factsF s N sd
      (fun i hi => hfire' i (by omega)) henvFail hbad
    rw [runTicks_append (some c) envf N 1 s ⟨false, sd⟩ ⟨false, sd⟩ _ hfail]
    have htick : trivia_tick (some c) (envf (s + N)) (s + N) ⟨false, sd⟩ =
        ⟨⟨true, some ((s + N) / 1440)⟩, [.trivia fact], none⟩ := by
      rw [henvSucc]
      exact tick_fire_success c h m hp chn fact [] (s + N) sd (hfire' N le_rfl)
    rw [runTicks_succ_ok (some c) envf (s + N) 0 ⟨false, sd⟩
      ⟨true, some ((s + N) / 1440)⟩ [.trivia fact] htick]
    simp [runTicks]
  · intro k hk
    rw [runTicks_failures c h m hp envf chn status factsF s k sd
      (fun i hi => hfire' i (by omega)) (fun i hi => henvFail i (by omega))
      (fun i hi => hbad i (by omega))]

/-- Witness for `fetch_failure_retry`: two failing fetches at minutes 60 and
61 of day 0, then a success at minute 62, produce two failure notices and
one trivia message. -/
theorem fetch_failure_retry_witness :
    runTicks (some { channel_id := 1, schedule := "09:00" })
        (fun n => if n = 62 then ⟨some 5, .response 200 ["F"]⟩
          else ⟨some 5, .response 500 []⟩) 60 3 ⟨false, none⟩ =
      ⟨⟨true, some 0⟩,
        [(60, .fetchFailure 500), (61, .fetchFailure 500), (62, .trivia "F")],
        none⟩ := by
  have hmain := (fetch_failure_retry { channel_id := 1, schedule := "09:00" }
    9 0 (by decide) 5 "F" (fun _ => 500) (fun _ => [])
    (fun n => if n = 62 then ⟨some 5, .response 200 ["F"]⟩
      else ⟨some 5, .response 500 []⟩) 60 2 none (by decide) (by decide)
    (fun i hi => by interval_cases i <;> rfl)
    (fun i hi => by simp) rfl).2.1
  simpa [List.range_succ] using hmain

/-- C1: with Config set to a parsable schedule, the channel resolving and the
fetcher succeeding on every tick, a minute-by-minute run that starts on day
`d` before the normalized fire time and crosses into day `d + 1` (stopping
before the next day's fire time) delivers the trivia message exactly once,
on the first tick at the normalized fire time, and on no other tick. -/
theorem at_most_once_per_day
    (c : Config) (h m : Nat) (hp : parseHM c.schedule = some (h, m))
    (chn : Nat) (fact : String) (envf : Nat → Env)
    (henv : ∀ n, envf n = ⟨some chn, .response 200 [fact]⟩)
    (d t0 e : Nat)
    (ht0 : t0 < fireMinutes h m)
    (he1 : (d + 1) * 1440 ≤ e)
    (he2 : e < (d + 1) * 1440 + fireMinutes h m) :
    runTicks (some c) envf (d * 1440 + t0) (e + 1 - (d * 1440 + t0))
        ⟨false, none⟩ =
      ⟨⟨false, some d⟩, [(d * 1440 + fireMinutes h m, .trivia fact)], none⟩ := by
  have hFlt : fireMinutes h m < 1440 := by
    unfold fireMinutes
    omega
  rw [show e + 1 - (d * 1440 + t0) =
    (fireMinutes h m - t0) +
      (1 + ((1439 - fireMinutes h m) + (1 + (e - (d + 1) * 1440)))) by omega]
  have hphase1 := runTicks_quiet_prefire c h m hp envf (d * 1440 + t0)
    (fireMinutes h m - t0) none (fun i hi => by omega)
  rw [runTicks_append (some c) envf (fireMinutes h m - t0)
    (1 + ((1439 - fireMinutes h m) + (1 + (e - (d + 1) * 1440))))
    (d * 1440 + t0) ⟨false, none⟩ ⟨false, none⟩ [] hphase1]
  rw [show d * 1440 + t0 + (fireMinutes h m - t0) = d * 1440 + fireMinutes h m
    by omega]
  rw [show 1 + ((1439 - fireMinutes h m) + (1 + (e - (d + 1) * 1440))) =
    ((1439 - fireMinutes h m) + (1 + (e - (d + 1) * 1440))) + 1 by omega]
  have htickfire : trivia_tick (some c) (envf (d * 1440 + fireMinutes h m))
      (d * 1440 + fireMinutes h m) ⟨false, none⟩ =
      ⟨⟨true, some d⟩, [.trivia fact], none⟩ := by
    rw [henv]
    have hfire := tick_fire_success c h m hp chn fact []
      (d * 1440 + fireMinutes h m) none (by omega)
    rw [show (d * 1440 + fireMinutes h m) / 1440 = d from by omega] at hfire
    exact hfire
  rw [runTicks_succ_ok (some c) envf (d * 1440 + fireMinutes h m)
    ((1439 - fireMinutes h m) + (1 + (e - (d + 1) * 1440))) ⟨false, none⟩
    ⟨true, some d⟩ [.trivia fact] htickfire]
  have hphase3 := runTicks_quiet_sent c h m hp envf
    (d * 1440 + fireMinutes h m + 1) (1439 - fireMinutes h m) d
    (fun i hi => by omega)
  rw [runTicks_append (some c) envf (1439 - fireMinutes h m)
    (1 + (e - (d + 1) * 1440)) (d * 1440 + fireMinutes h m + 1)
    ⟨true, some d⟩ ⟨true, some d⟩ [] hphase3]
  rw [show d * 1440 + fireMinutes h m + 1 + (1439 - fireMinutes h m) =
    (d + 1) * 1440 by omega]
  rw [show 1 + (e - (d + 1) * 1440) = (e - (d + 1) * 1440) + 1 by omega]
  have htickroll : trivia_tick (some c) (envf ((d + 1) * 1440))
      ((d + 1) * 1440) ⟨true, some d⟩ = ⟨⟨false, some d⟩, [], none⟩ := by
    rw [henv]
    exact tick_newday_quiet c h m hp _ ((d + 1) * 1440) d true (by omega)
      (by omega)
  rw [runTicks_succ_ok (some c) envf ((d + 1) * 1440) (e - (d + 1) * 1440)
    ⟨true, some d⟩ ⟨false, some d⟩ [] htickroll]
  have hphase5 := runTicks_quiet_prefire c h m hp envf ((d + 1) * 1440 + 1)
    (e - (d + 1) * 1440) (some d) (fun i hi => by omega)
  rw [hphase5]
  simp

/-- Witness for `at_most_once_per_day`: a 1441-tick run over day 0 and the
first minute of day 1 with schedule "09:00" sends exactly once, at minute 60
(01:00 UTC). -/
theorem at_most_once_per_day_witness :
    runTicks (some { channel_id := 1, schedule := "09:00" })
        (fun _ => ⟨some 5, .response 200 ["Bees can fly."]⟩) 0 1441
        ⟨false, none⟩ =
      ⟨⟨false, some 0⟩, [(60, .trivia "Bees can fly.")], none⟩ := by
  have hmain := at_most_once_per_day { channel_id := 1, schedule := "09:00" }
    9 0 (by decide) 5 "Bees can fly."
    (fun _ => ⟨some 5, .response 200 ["Bees can fly."]⟩) (fun _ => rfl)
    0 0 1440 (by decide) (by omega) (by decide)
  simpa using hmain

end ProgphilTrivia
